import Mathlib

/-!
The rest-minio-proxy: request routing and the cached health probe.

A shallow embedding of `proxy.go`.  The handlers of the program act on four
things: the global `lastHealthCheckTime`, the `http.ResponseWriter` of the
request, the object-store client, and the loggers.  Each handler is embedded
as a function on an explicit record of these (`Effects`), the wall clock
reading `time.Now().Unix()` being an argument.

Conventions.
* A Go `string` is a Lean `String`; a Go byte stream is a `List UInt8`; a
  string written to the response is written as its UTF-8 bytes (`goBytes`).
* `int64` values are integers; the one arithmetic operation of the program,
  `currentTime - lastHealthCheckTime`, wraps around at 64 bits (`int64Sub`).
* `error` values are represented by their description (`err.Error()`),
  `nil` by `none`.
-/

namespace RestMinioProxy

/-! ## Go runtime and library operations used by the program -/

/-- A sequence of bytes. -/
abbrev Bytes := List UInt8

/-- The bytes of a Go string. -/
def goBytes (s : String) : Bytes :=
  s.data.flatMap String.utf8EncodeChar

/-- The value of an integer as an `int64` (two's complement wrap-around). -/
def wrapInt64 (x : Int) : Int :=
  (x + 2 ^ 63) % 2 ^ 64 - 2 ^ 63

/-- Go's `a - b` on `int64` operands. -/
def int64Sub (a b : Int) : Int :=
  wrapInt64 (a - b)

/-- Go's `s[1:]`: `none` is the run-time panic on an empty string; otherwise
the string without its first character (its first byte, for the paths the
server mux hands to a handler registered on "/", which all begin with "/"). -/
def sliceFrom1 (s : String) : Option String :=
  match s.data with
  | [] => none
  | _ :: cs => some (String.mk cs)

/-- The state of an `http.ResponseWriter`: the status code sent by
`WriteHeader`, if it was sent, and the body bytes written so far.  (Header
fields are not modelled.) -/
structure ResponseWriter where
  status : Option Nat
  body : Bytes
  deriving DecidableEq, Repr

namespace ResponseWriter

/-- The writer a handler receives: nothing sent yet. -/
def fresh : ResponseWriter :=
  { status := none, body := [] }

/-- Method `w.WriteHeader(code)`: the first call fixes the status code, a later one
is ignored. -/
def WriteHeader (w : ResponseWriter) (code : Nat) : ResponseWriter :=
  match w.status with
  | some _ => w
  | none => { w with status := some code }

/-- Method `w.Write(p)`: sends status 200 first if no status was sent yet. -/
def Write (w : ResponseWriter) (p : Bytes) : ResponseWriter :=
  let w1 := w.WriteHeader 200
  { w1 with body := w1.body ++ p }

/-- The status code the client receives once the handler has returned: the
one sent, or 200 when the handler never sent one. -/
def statusCode (w : ResponseWriter) : Nat :=
  w.status.getD 200

end ResponseWriter

/-- Constant `http.StatusBadRequest`. -/
def StatusBadRequest : Nat := 400

/-- Constant `http.StatusMethodNotAllowed`. -/
def StatusMethodNotAllowed : Nat := 405

/-- Constant `http.StatusInternalServerError`. -/
def StatusInternalServerError : Nat := 500

/-- Go library function `http.Error(w, error, code)`: sends the status code, then the message
followed by a newline (`fmt.Fprintln`). -/
def httpError (w : ResponseWriter) (error : String) (code : Nat) : ResponseWriter :=
  (w.WriteHeader code).Write (goBytes (error ++ "\n"))

/-- Go library function `io.WriteString(w, s)`. -/
def ioWriteString (w : ResponseWriter) (s : String) : ResponseWriter :=
  w.Write (goBytes s)

/-- Go library function `io.Copy(w, object)`, for an object whose stream yields `object` and then
ends. -/
def ioCopy (w : ResponseWriter) (object : Bytes) : ResponseWriter :=
  w.Write object

/-- The object-store client: `GetObject(bucket, key)` yields the object's
content or an error (given by its description). -/
structure Client where
  GetObject : String → String → Except String Bytes

/-- The `object` part of a `GetObject` result (empty when there is an error). -/
def objectOf (r : Except String Bytes) : Bytes :=
  match r with
  | .ok b => b
  | .error _ => []

/-- The `err` part of a `GetObject` result (`none` is `nil`). -/
def errOf (r : Except String Bytes) : Option String :=
  match r with
  | .ok _ => none
  | .error e => some e

/-! ## Globals and effects -/

/-- The configuration globals read by the handlers. -/
structure Config where
  minioBucket : String
  healthFile : String
  healthCheckCacheInterval : Int

/-- One line of output: through the `Info` logger, the `Error` logger, or
`fmt.Println`. -/
inductive LogLine where
  | info (msg : String)
  | error (msg : String)
  | stdout (msg : String)
  deriving DecidableEq, Repr

/-- What a handler reads and changes: the global `lastHealthCheckTime`, the
response writer, the `GetObject` calls issued so far (bucket, key), and the
lines logged so far. -/
structure Effects where
  lastHealthCheckTime : Int
  w : ResponseWriter
  calls : List (String × String)
  log : List LogLine
  deriving DecidableEq, Repr

namespace Effects

/-- The situation when a request arrives: the current value of the global, a
fresh writer, no call issued, nothing logged. -/
def init (lastHealthCheckTime : Int) : Effects :=
  { lastHealthCheckTime := lastHealthCheckTime, w := ResponseWriter.fresh,
    calls := [], log := [] }

/-- Logger call `Info.Println(msg)`. -/
def info (s : Effects) (msg : String) : Effects :=
  { s with log := s.log ++ [LogLine.info msg] }

/-- Logger call `Error.Println(msg)`. -/
def error (s : Effects) (msg : String) : Effects :=
  { s with log := s.log ++ [LogLine.error msg] }

/-- Library call `fmt.Println(msg)`. -/
def println (s : Effects) (msg : String) : Effects :=
  { s with log := s.log ++ [LogLine.stdout msg] }

/-- Client call `minioClient.GetObject(bucket, key)`, recording the call. -/
def getObject (s : Effects) (minioClient : Client) (bucket key : String) :
    Effects × Except String Bytes :=
  ({ s with calls := s.calls ++ [(bucket, key)] }, minioClient.GetObject bucket key)

end Effects

/-! ## The program -/

/-- The function `handleHTTPException`: for a non-nil error, send a 500 with
the error's description; return the error. -/
def handleHTTPException (_path : String) (w : ResponseWriter) (err : Option String) :
    ResponseWriter × Option String :=
  match err with
  | some e => (httpError w ("An internal error occurred: " ++ e) StatusInternalServerError, err)
  | none => (w, err)

/-- The function `serveHealth`; `now` is `time.Now().Unix()`. -/
def serveHealth (cfg : Config) (minioClient : Client) (now : Int) (s : Effects) : Effects :=
  let currentTime := now
  if int64Sub currentTime s.lastHealthCheckTime > cfg.healthCheckCacheInterval then
    let s1 := s.info ("Making health check for path '" ++ cfg.healthFile ++ "'")
    let (s2, r) := s1.getObject minioClient cfg.minioBucket cfg.healthFile
    let (w3, e) := handleHTTPException cfg.healthFile s2.w (errOf r)
    let s3 := { s2 with w := w3 }
    match e with
    | some _ => s3.error "Health check failed"
    | none =>
      let s4 := s3.info "Health check passed"
      let s5 := { s4 with lastHealthCheckTime := currentTime }
      { s5 with w := ioWriteString s5.w "OK" }
  else
    { s with w := ioWriteString s.w "OK" }

/-- The function `serveGetMinioFile`. -/
def serveGetMinioFile (filePath : String) (minioClient : Client) (s : Effects) : Effects :=
  let (s1, r) := s.getObject minioClient "mybucket" "photo.jpg"
  let object := objectOf r
  let err := errOf r
  match err with
  | some e => s1.println e
  | none =>
    let (w2, e) := handleHTTPException filePath s1.w err
    let s2 := { s1 with w := w2 }
    match e with
    | some _ => s2
    | none => { s2 with w := ioCopy s2.w object }

/-- The function `serveMinioFile`, for a request with method `method` and URL
path `urlPath`; `none` is the panic of `r.URL.Path[1:]` on an empty path. -/
def serveMinioFile (cfg : Config) (minioClient : Client) (now : Int)
    (method urlPath : String) (s : Effects) : Option Effects :=
  match sliceFrom1 urlPath with
  | none => none
  | some path =>
    if path = "" then
      some { s with w := httpError s.w "Path must be provided" StatusBadRequest }
    else if path = "healthz" then
      if method = "GET" then
        some (serveHealth cfg minioClient now s)
      else
        some { s with w := httpError s.w "/healthz is restricted to GET requests"
                              StatusMethodNotAllowed }
    else
      let s1 := s.info ("Handling " ++ method ++ " request for '" ++ path ++ "'")
      if method = "GET" then
        some (serveGetMinioFile path minioClient s1)
      else
        some { s1 with w := httpError s1.w ("Method " ++ method ++ " not supported")
                               StatusMethodNotAllowed }

/-- The value of `lastHealthCheckTime` once a request has been handled: a
handler that panicked before touching the global leaves it as it was. -/
def lastAfter (before : Int) (r : Option Effects) : Int :=
  match r with
  | some s => s.lastHealthCheckTime
  | none => before

/-! ## Start-up: the cache interval -/

/-- The value of a non-empty string of decimal digits, continuing from `acc`;
`none` when a character is not a decimal digit. -/
def parseDigits : List Char → Nat → Option Nat
  | [], acc => some acc
  | c :: cs, acc =>
    if '0' ≤ c ∧ c ≤ '9' then parseDigits cs (acc * 10 + (c.toNat - '0'.toNat)) else none

/-- Go's `strconv.ParseInt(s, 10, 64)`: an optional sign, then one or more
decimal digits, the value being an `int64`; `none` when it returns an error. -/
def ParseInt (s : String) : Option Int :=
  match s.data with
  | [] => none
  | c :: cs =>
    let neg : Bool := c = '-'
    let ds := if c = '+' ∨ c = '-' then cs else c :: cs
    if ds = [] then none
    else
      match parseDigits ds 0 with
      | none => none
      | some un =>
        if ¬ neg ∧ un ≥ 2 ^ 63 then none
        else if neg ∧ un > 2 ^ 63 then none
        else some (if neg then - (un : Int) else (un : Int))

/-- The end of `getAllEnvVariables`: the cache interval, from the string
`healthIntervalString` obtained for `HEALTH_CACHE_INTERVAL`; `none` is the
panic on a parse error. -/
def parseHealthCheckCacheInterval (healthIntervalString : String) : Option Int :=
  match ParseInt healthIntervalString with
  | none => none
  | some healthIntervalInt => some healthIntervalInt

/-! ## Vocabulary of the statements and sample inputs -/

/-- An integer that an `int64` holds. -/
def isInt64 (x : Int) : Prop :=
  -(2 ^ 63) ≤ x ∧ x < 2 ^ 63

instance (x : Int) : Decidable (isInt64 x) :=
  inferInstanceAs (Decidable (-(2 ^ 63) ≤ x ∧ x < 2 ^ 63))

/-- The configuration of the example: bucket `test`, sentinel key `.health`,
cache interval 120 seconds. -/
def sampleConfig : Config :=
  { minioBucket := "test", healthFile := ".health", healthCheckCacheInterval := 120 }

/-- A backend in which every fetch succeeds, with a two-byte object. -/
def upClient : Client :=
  { GetObject := fun _ _ => Except.ok [104, 105] }

/-- A backend in which every fetch fails with the error `not found`. -/
def downClient : Client :=
  { GetObject := fun _ _ => Except.error "not found" }

/-- A backend holding the object `a.txt` in bucket `test` (bytes `hi`) and
the object `photo.jpg` in bucket `mybucket` (bytes 1, 2, 3), and nothing
else. -/
def twoObjectsClient : Client :=
  { GetObject := fun bucket key =>
      if bucket = "test" ∧ key = "a.txt" then Except.ok [104, 105]
      else if bucket = "mybucket" ∧ key = "photo.jpg" then Except.ok [1, 2, 3]
      else Except.error "not found" }

/-- The configuration of the example with bucket `mybucket`. -/
def mybucketConfig : Config :=
  { minioBucket := "mybucket", healthFile := ".health", healthCheckCacheInterval := 120 }

/-- The configuration of the example with the cache interval parsed from
`HEALTH_CACHE_INTERVAL=-100`. -/
def negativeIntervalConfig : Config :=
  { minioBucket := "test", healthFile := ".health", healthCheckCacheInterval := -100 }

/-! ## Basic facts about the library operations -/

theorem goBytes_append (a b : String) : goBytes (a ++ b) = goBytes a ++ goBytes b := by
  simp [goBytes, String.data_append, List.flatMap_append]

theorem wrapInt64_of_isInt64 (x : Int) (h : isInt64 x) : wrapInt64 x = x := by
  obtain ⟨h1, h2⟩ := h
  unfold wrapInt64
  rw [Int.emod_eq_of_lt (by omega) (by omega)]
  omega

theorem int64Sub_of_isInt64 (a b : Int) (h : isInt64 (a - b)) : int64Sub a b = a - b :=
  wrapInt64_of_isInt64 (a - b) h

theorem isInt64_sub_of_nonneg (a b : Int) (ha : 0 ≤ a ∧ a < 2 ^ 63) (hb : 0 ≤ b ∧ b < 2 ^ 63) :
    isInt64 (a - b) := by
  unfold isInt64
  omega

theorem sliceFrom1_slash (k : String) : sliceFrom1 ("/" ++ k) = some k := by
  cases k with
  | mk cs => rfl

theorem statusCode_httpError_fresh (msg : String) (code : Nat) :
    (httpError ResponseWriter.fresh msg code).statusCode = code := by
  simp [httpError, ResponseWriter.fresh, ResponseWriter.WriteHeader, ResponseWriter.Write,
    ResponseWriter.statusCode]

theorem body_httpError_fresh (msg : String) (code : Nat) :
    (httpError ResponseWriter.fresh msg code).body = goBytes (msg ++ "\n") := by
  simp [httpError, ResponseWriter.fresh, ResponseWriter.WriteHeader, ResponseWriter.Write]

theorem ioWriteString_fresh (str : String) :
    ioWriteString ResponseWriter.fresh str = { status := some 200, body := goBytes str } := by
  simp [ioWriteString, ResponseWriter.fresh, ResponseWriter.WriteHeader, ResponseWriter.Write]

theorem ioCopy_fresh (object : Bytes) :
    ioCopy ResponseWriter.fresh object = { status := some 200, body := object } := by
  simp [ioCopy, ResponseWriter.fresh, ResponseWriter.WriteHeader, ResponseWriter.Write]

/-! ## The routes of `serveMinioFile` -/

theorem serveMinioFile_root (cfg : Config) (minioClient : Client) (now : Int)
    (method : String) (s : Effects) :
    serveMinioFile cfg minioClient now method "/" s =
      some { s with w := httpError s.w "Path must be provided" StatusBadRequest } := by
  have h : sliceFrom1 "/" = some "" := rfl
  simp [serveMinioFile, h]

theorem serveMinioFile_healthz_get (cfg : Config) (minioClient : Client) (now : Int)
    (s : Effects) :
    serveMinioFile cfg minioClient now "GET" "/healthz" s =
      some (serveHealth cfg minioClient now s) := by
  have h : sliceFrom1 "/healthz" = some "healthz" := rfl
  simp [serveMinioFile, h]

theorem serveMinioFile_healthz_other (cfg : Config) (minioClient : Client) (now : Int)
    (method : String) (hm : method ≠ "GET") (s : Effects) :
    serveMinioFile cfg minioClient now method "/healthz" s =
      some { s with w := httpError s.w "/healthz is restricted to GET requests"
                            StatusMethodNotAllowed } := by
  have h : sliceFrom1 "/healthz" = some "healthz" := rfl
  simp [serveMinioFile, h, hm]

theorem serveMinioFile_key_get (cfg : Config) (minioClient : Client) (now : Int)
    (k : String) (hk : k ≠ "") (hh : k ≠ "healthz") (s : Effects) :
    serveMinioFile cfg minioClient now "GET" ("/" ++ k) s =
      some (serveGetMinioFile k minioClient
        (s.info ("Handling " ++ "GET" ++ " request for '" ++ k ++ "'"))) := by
  simp [serveMinioFile, sliceFrom1_slash, hk, hh]

theorem serveMinioFile_key_other (cfg : Config) (minioClient : Client) (now : Int)
    (method k : String) (hm : method ≠ "GET") (hk : k ≠ "") (hh : k ≠ "healthz")
    (s : Effects) :
    serveMinioFile cfg minioClient now method ("/" ++ k) s =
      some { s.info ("Handling " ++ method ++ " request for '" ++ k ++ "'") with
        w := httpError s.w ("Method " ++ method ++ " not supported") StatusMethodNotAllowed } := by
  simp [serveMinioFile, sliceFrom1_slash, hk, hh, hm, Effects.info]

/-! ## The two branches of `serveHealth` -/

theorem serveHealth_of_le (cfg : Config) (minioClient : Client) (now : Int) (s : Effects)
    (h : int64Sub now s.lastHealthCheckTime ≤ cfg.healthCheckCacheInterval) :
    serveHealth cfg minioClient now s = { s with w := ioWriteString s.w "OK" } := by
  simp [serveHealth, not_lt.mpr h]

theorem serveHealth_of_gt_ok (cfg : Config) (minioClient : Client) (now : Int) (s : Effects)
    (b : Bytes)
    (h : int64Sub now s.lastHealthCheckTime > cfg.healthCheckCacheInterval)
    (hb : minioClient.GetObject cfg.minioBucket cfg.healthFile = Except.ok b) :
    serveHealth cfg minioClient now s =
      { lastHealthCheckTime := now,
        w := ioWriteString s.w "OK",
        calls := s.calls ++ [(cfg.minioBucket, cfg.healthFile)],
        log := s.log ++ [LogLine.info ("Making health check for path '" ++ cfg.healthFile ++ "'")]
          ++ [LogLine.info "Health check passed"] } := by
  simp [serveHealth, h, Effects.getObject, Effects.info, hb, errOf, handleHTTPException]

theorem serveHealth_of_gt_error (cfg : Config) (minioClient : Client) (now : Int) (s : Effects)
    (e : String)
    (h : int64Sub now s.lastHealthCheckTime > cfg.healthCheckCacheInterval)
    (hb : minioClient.GetObject cfg.minioBucket cfg.healthFile = Except.error e) :
    serveHealth cfg minioClient now s =
      { lastHealthCheckTime := s.lastHealthCheckTime,
        w := httpError s.w ("An internal error occurred: " ++ e) StatusInternalServerError,
        calls := s.calls ++ [(cfg.minioBucket, cfg.healthFile)],
        log := s.log ++ [LogLine.info ("Making health check for path '" ++ cfg.healthFile ++ "'")]
          ++ [LogLine.error "Health check failed"] } := by
  simp [serveHealth, h, Effects.getObject, Effects.info, Effects.error, hb, errOf,
    handleHTTPException]

theorem serveHealth_calls_of_gt (cfg : Config) (minioClient : Client) (now : Int) (s : Effects)
    (h : int64Sub now s.lastHealthCheckTime > cfg.healthCheckCacheInterval) :
    (serveHealth cfg minioClient now s).calls = s.calls ++ [(cfg.minioBucket, cfg.healthFile)] := by
  cases hb : minioClient.GetObject cfg.minioBucket cfg.healthFile with
  | ok b => rw [serveHealth_of_gt_ok cfg minioClient now s b h hb]
  | error e => rw [serveHealth_of_gt_error cfg minioClient now s e h hb]

/-! ## The branches of `serveGetMinioFile` -/

theorem serveGetMinioFile_of_ok (filePath : String) (minioClient : Client) (s : Effects)
    (b : Bytes) (hb : minioClient.GetObject "mybucket" "photo.jpg" = Except.ok b) :
    serveGetMinioFile filePath minioClient s =
      { s with w := ioCopy s.w b, calls := s.calls ++ [("mybucket", "photo.jpg")] } := by
  simp [serveGetMinioFile, Effects.getObject, hb, errOf, objectOf, handleHTTPException]

theorem serveGetMinioFile_of_error (filePath : String) (minioClient : Client) (s : Effects)
    (e : String) (hb : minioClient.GetObject "mybucket" "photo.jpg" = Except.error e) :
    serveGetMinioFile filePath minioClient s =
      { s with calls := s.calls ++ [("mybucket", "photo.jpg")],
               log := s.log ++ [LogLine.stdout e] } := by
  simp [serveGetMinioFile, Effects.getObject, hb, errOf, Effects.println]

theorem serveGetMinioFile_lastHealthCheckTime (filePath : String) (minioClient : Client)
    (s : Effects) :
    (serveGetMinioFile filePath minioClient s).lastHealthCheckTime = s.lastHealthCheckTime := by
  cases hb : minioClient.GetObject "mybucket" "photo.jpg" with
  | ok b => rw [serveGetMinioFile_of_ok filePath minioClient s b hb]
  | error e => rw [serveGetMinioFile_of_error filePath minioClient s e hb]

/-! ## How a request changes `lastHealthCheckTime` -/

theorem serveHealth_lastHealthCheckTime (cfg : Config) (minioClient : Client) (now : Int)
    (s : Effects) :
    (serveHealth cfg minioClient now s).lastHealthCheckTime = s.lastHealthCheckTime ∨
    ((serveHealth cfg minioClient now s).lastHealthCheckTime = now ∧
      int64Sub now s.lastHealthCheckTime > cfg.healthCheckCacheInterval) := by
  by_cases h : int64Sub now s.lastHealthCheckTime > cfg.healthCheckCacheInterval
  · cases hb : minioClient.GetObject cfg.minioBucket cfg.healthFile with
    | ok b =>
      right
      rw [serveHealth_of_gt_ok cfg minioClient now s b h hb]
      exact ⟨rfl, h⟩
    | error e =>
      left
      rw [serveHealth_of_gt_error cfg minioClient now s e h hb]
  · left
    rw [serveHealth_of_le cfg minioClient now s (not_lt.mp h)]

theorem serveMinioFile_lastHealthCheckTime (cfg : Config) (minioClient : Client) (now : Int)
    (method urlPath : String) (s : Effects) :
    lastAfter s.lastHealthCheckTime (serveMinioFile cfg minioClient now method urlPath s)
        = s.lastHealthCheckTime ∨
    (lastAfter s.lastHealthCheckTime (serveMinioFile cfg minioClient now method urlPath s) = now ∧
      int64Sub now s.lastHealthCheckTime > cfg.healthCheckCacheInterval) := by
  unfold serveMinioFile
  cases sliceFrom1 urlPath with
  | none => left; rfl
  | some path =>
    by_cases h1 : path = ""
    · left; simp [h1, lastAfter]
    · by_cases h2 : path = "healthz"
      · by_cases h3 : method = "GET"
        · simpa [h2, h3, lastAfter] using serveHealth_lastHealthCheckTime cfg minioClient now s
        · left; simp [h2, h3, lastAfter]
      · by_cases h3 : method = "GET"
        · left
          simp [h1, h2, h3, lastAfter, serveGetMinioFile_lastHealthCheckTime, Effects.info]
        · left; simp [h1, h2, h3, lastAfter, Effects.info]

/-! ## Fetching an object -/

/-- Claim C1, evaluated on the code: with bucket `test` configured and a
backend that holds `a.txt` in it (bytes `hi`), handling `GET /a.txt` issues one
fetch, for (`mybucket`, `photo.jpg`), and answers 200 with the bytes of that
object, not those of `a.txt`. -/
theorem get_key_fetches_fixed_object :
    twoObjectsClient.GetObject sampleConfig.minioBucket "a.txt" = Except.ok [104, 105] ∧
    (serveMinioFile sampleConfig twoObjectsClient 0 "GET" "/a.txt" (Effects.init 0)).map
        (fun s => (s.calls, s.w.statusCode, s.w.body)) =
      some ([("mybucket", "photo.jpg")], 200, [1, 2, 3]) :=
  ⟨rfl, by decide⟩

/-- Claim C2, evaluated on the code: when the fetch fails with `not found`,
handling `GET /photo.jpg` prints the error and returns with nothing sent on the
response writer, so the client receives status 200 and an empty body, not a
500 with the error message. -/
theorem get_key_fetch_error_sends_nothing :
    downClient.GetObject mybucketConfig.minioBucket "photo.jpg" = Except.error "not found" ∧
    (serveMinioFile mybucketConfig downClient 0 "GET" "/photo.jpg" (Effects.init 0)).map
        (fun s => (s.calls, s.w, s.w.statusCode, s.w.body)) =
      some ([("mybucket", "photo.jpg")], ResponseWriter.fresh, 200, []) :=
  ⟨rfl, by decide⟩

/-! ## The health probe -/

/-- Claim C3: when `now - lastHealthCheckTime <= healthCheckCacheInterval`
(the `int64` difference the code computes), `serveHealth` issues no `GetObject`
call, leaves `lastHealthCheckTime` as it was, and answers 200 with body `OK`,
whatever the backend is. -/
theorem serveHealth_cached (cfg : Config) (minioClient : Client) (now last : Int)
    (h : int64Sub now last ≤ cfg.healthCheckCacheInterval) :
    (serveHealth cfg minioClient now (Effects.init last)).calls = [] ∧
    (serveHealth cfg minioClient now (Effects.init last)).lastHealthCheckTime = last ∧
    (serveHealth cfg minioClient now (Effects.init last)).w.statusCode = 200 ∧
    (serveHealth cfg minioClient now (Effects.init last)).w.body = goBytes "OK" := by
  rw [serveHealth_of_le cfg minioClient now (Effects.init last) h]
  simp [Effects.init, ioWriteString_fresh, ResponseWriter.statusCode]

/-- Witness of C3: interval 120, `lastHealthCheckTime` 0, now 50, on a backend
that is down. -/
theorem serveHealth_cached_witness :
    int64Sub 50 0 ≤ sampleConfig.healthCheckCacheInterval ∧
    (serveHealth sampleConfig downClient 50 (Effects.init 0)).calls = [] ∧
    (serveHealth sampleConfig downClient 50 (Effects.init 0)).lastHealthCheckTime = 0 ∧
    (serveHealth sampleConfig downClient 50 (Effects.init 0)).w.statusCode = 200 ∧
    (serveHealth sampleConfig downClient 50 (Effects.init 0)).w.body = goBytes "OK" :=
  ⟨by decide, serveHealth_cached sampleConfig downClient 50 0 (by decide)⟩

/-- Claim C4: when `now - lastHealthCheckTime > healthCheckCacheInterval` (the
`int64` difference the code computes), `serveHealth` issues exactly one
`GetObject` call, for (`minioBucket`, `healthFile`); if that call succeeds,
`lastHealthCheckTime` becomes `now` and the answer is 200 with body `OK`. -/
theorem serveHealth_probe (cfg : Config) (minioClient : Client) (now last : Int)
    (h : int64Sub now last > cfg.healthCheckCacheInterval) :
    (serveHealth cfg minioClient now (Effects.init last)).calls
        = [(cfg.minioBucket, cfg.healthFile)] ∧
    ∀ b : Bytes, minioClient.GetObject cfg.minioBucket cfg.healthFile = Except.ok b →
      (serveHealth cfg minioClient now (Effects.init last)).lastHealthCheckTime = now ∧
      (serveHealth cfg minioClient now (Effects.init last)).w.statusCode = 200 ∧
      (serveHealth cfg minioClient now (Effects.init last)).w.body = goBytes "OK" := by
  refine ⟨?_, ?_⟩
  · rw [serveHealth_calls_of_gt cfg minioClient now (Effects.init last) h]
    rfl
  · intro b hb
    rw [serveHealth_of_gt_ok cfg minioClient now (Effects.init last) b h hb]
    simp [Effects.init, ioWriteString_fresh, ResponseWriter.statusCode]

/-- Witness of C4: interval 120, `lastHealthCheckTime` 0, now 130, on a backend
that is up: one call, and `lastHealthCheckTime` becomes 130. -/
theorem serveHealth_probe_witness :
    int64Sub 130 0 > sampleConfig.healthCheckCacheInterval ∧
    (serveHealth sampleConfig upClient 130 (Effects.init 0)).calls = [("test", ".health")] ∧
    (serveHealth sampleConfig upClient 130 (Effects.init 0)).lastHealthCheckTime = 130 ∧
    (serveHealth sampleConfig upClient 130 (Effects.init 0)).w.statusCode = 200 ∧
    (serveHealth sampleConfig upClient 130 (Effects.init 0)).w.body = goBytes "OK" :=
  ⟨by decide, (serveHealth_probe sampleConfig upClient 130 0 (by decide)).1,
    (serveHealth_probe sampleConfig upClient 130 0 (by decide)).2 [104, 105] rfl⟩

/-- Claim C5: when `serveHealth` performs the probe and the backend returns
an error `e`, `lastHealthCheckTime` is left as it was, the status is 500, the
body is `An internal error occurred: ` followed by the description of `e`
(and the newline with which `http.Error` ends the message), and nothing more is
written: the response is that of `http.Error` alone and does not end in `OK`. -/
theorem serveHealth_probe_failed (cfg : Config) (minioClient : Client) (now last : Int)
    (e : String)
    (h : int64Sub now last > cfg.healthCheckCacheInterval)
    (he : minioClient.GetObject cfg.minioBucket cfg.healthFile = Except.error e) :
    (serveHealth cfg minioClient now (Effects.init last)).lastHealthCheckTime = last ∧
    (serveHealth cfg minioClient now (Effects.init last)).w.statusCode = 500 ∧
    (serveHealth cfg minioClient now (Effects.init last)).w.body
        = goBytes ("An internal error occurred: " ++ e) ++ goBytes "\n" ∧
    (serveHealth cfg minioClient now (Effects.init last)).w
        = httpError ResponseWriter.fresh ("An internal error occurred: " ++ e) 500 ∧
    ¬ (goBytes "OK" <:+ (serveHealth cfg minioClient now (Effects.init last)).w.body) := by
  rw [serveHealth_of_gt_error cfg minioClient now (Effects.init last) e h he]
  have hbody : (httpError ResponseWriter.fresh ("An internal error occurred: " ++ e)
      StatusInternalServerError).body
        = goBytes ("An internal error occurred: " ++ e) ++ goBytes "\n" := by
    rw [body_httpError_fresh, goBytes_append]
  refine ⟨rfl, ?_, ?_, rfl, ?_⟩
  · exact statusCode_httpError_fresh _ _
  · exact hbody
  · show ¬ (goBytes "OK" <:+ (httpError ResponseWriter.fresh
        ("An internal error occurred: " ++ e) StatusInternalServerError).body)
    rw [hbody]
    have h1 : goBytes "OK" = [79, 75] := by decide
    have h2 : goBytes "\n" = [10] := by decide
    rw [h1, h2]
    rintro ⟨t, ht⟩
    have h3 := congrArg List.getLast? ht
    simp at h3

/-- Witness of C5: interval 120, `lastHealthCheckTime` 0, now 130, on a backend
that answers `not found`. -/
theorem serveHealth_probe_failed_witness :
    int64Sub 130 0 > sampleConfig.healthCheckCacheInterval ∧
    downClient.GetObject sampleConfig.minioBucket sampleConfig.healthFile
        = Except.error "not found" ∧
    (serveHealth sampleConfig downClient 130 (Effects.init 0)).lastHealthCheckTime = 0 ∧
    (serveHealth sampleConfig downClient 130 (Effects.init 0)).w.statusCode = 500 ∧
    (serveHealth sampleConfig downClient 130 (Effects.init 0)).w.body
        = goBytes ("An internal error occurred: " ++ "not found") ++ goBytes "\n" ∧
    (serveHealth sampleConfig downClient 130 (Effects.init 0)).w
        = httpError ResponseWriter.fresh ("An internal error occurred: " ++ "not found") 500 ∧
    ¬ (goBytes "OK" <:+ (serveHealth sampleConfig downClient 130 (Effects.init 0)).w.body) :=
  ⟨by decide, rfl,
    serveHealth_probe_failed sampleConfig downClient 130 0 "not found" (by decide) rfl⟩

/-- Claim C6: if a `GET /healthz` at time `t` performs the probe and the probe
fails, the next `GET /healthz`, at any time `t' >= t`, performs the probe
again, whatever the backend is by then; `lastHealthCheckTime` is the same for
both.  The two elapsed times `t - lastHealthCheckTime` and
`t' - lastHealthCheckTime` are `int64` values, as they are for all Unix times
that are not negative. -/
theorem failed_probe_is_retried (cfg : Config) (c1 c2 : Client) (last t t' : Int)
    (e : String) (r1 : Effects)
    (ht : isInt64 (t - last)) (ht' : isInt64 (t' - last)) (htt : t ≤ t')
    (h1 : serveMinioFile cfg c1 t "GET" "/healthz" (Effects.init last) = some r1)
    (hp : r1.calls = [(cfg.minioBucket, cfg.healthFile)])
    (hf : c1.GetObject cfg.minioBucket cfg.healthFile = Except.error e) :
    r1.lastHealthCheckTime = last ∧
    ∃ r2 : Effects,
      serveMinioFile cfg c2 t' "GET" "/healthz" (Effects.init r1.lastHealthCheckTime) = some r2 ∧
      r2.calls = [(cfg.minioBucket, cfg.healthFile)] := by
  rw [serveMinioFile_healthz_get] at h1
  have hr1 : r1 = serveHealth cfg c1 t (Effects.init last) := (Option.some.inj h1).symm
  have hgt : int64Sub t last > cfg.healthCheckCacheInterval := by
    by_contra hle
    have hcached := serveHealth_of_le cfg c1 t (Effects.init last) (not_lt.mp hle)
    rw [hr1, hcached] at hp
    simp [Effects.init] at hp
  have hlast : r1.lastHealthCheckTime = last := by
    rw [hr1, serveHealth_of_gt_error cfg c1 t (Effects.init last) e hgt hf]
    rfl
  refine ⟨hlast, serveHealth cfg c2 t' (Effects.init r1.lastHealthCheckTime), ?_, ?_⟩
  · rw [serveMinioFile_healthz_get]
  · rw [hlast]
    have hgt' : int64Sub t' last > cfg.healthCheckCacheInterval := by
      rw [int64Sub_of_isInt64 t last ht] at hgt
      rw [int64Sub_of_isInt64 t' last ht']
      omega
    rw [serveHealth_calls_of_gt cfg c2 t' (Effects.init last) hgt']
    rfl

/-- Witness of C6: interval 120, `lastHealthCheckTime` 0; the probe of the
request at time 130 fails; the request at time 131 probes again. -/
theorem failed_probe_is_retried_witness :
    (isInt64 (130 - 0) ∧ isInt64 (131 - 0) ∧ (130 : Int) ≤ 131) ∧
    (serveHealth sampleConfig downClient 130 (Effects.init 0)).lastHealthCheckTime = 0 ∧
    ∃ r2 : Effects,
      serveMinioFile sampleConfig upClient 131 "GET" "/healthz"
        (Effects.init (serveHealth sampleConfig downClient 130
          (Effects.init 0)).lastHealthCheckTime) = some r2 ∧
      r2.calls = [(sampleConfig.minioBucket, sampleConfig.healthFile)] :=
  ⟨⟨by decide, by decide, by decide⟩,
    failed_probe_is_retried sampleConfig downClient upClient 0 130 131 "not found"
      (serveHealth sampleConfig downClient 130 (Effects.init 0))
      (by decide) (by decide) (by decide) (by decide) (by decide) rfl⟩

/-! ## Rejected requests -/

/-- Claim C7: for every method, state and backend, a request for the path `/`
gets status 400 with the message `Path must be provided` (ended by the newline
of `http.Error`), makes no backend call, and leaves `lastHealthCheckTime` as it
was. -/
theorem root_path_bad_request (cfg : Config) (minioClient : Client) (now last : Int)
    (method : String) :
    ∃ s : Effects,
      serveMinioFile cfg minioClient now method "/" (Effects.init last) = some s ∧
      s.w.statusCode = 400 ∧
      s.w.body = goBytes "Path must be provided" ++ goBytes "\n" ∧
      s.calls = [] ∧
      s.lastHealthCheckTime = last := by
  refine ⟨_, serveMinioFile_root cfg minioClient now method (Effects.init last), ?_, ?_, rfl, rfl⟩
  · exact statusCode_httpError_fresh _ _
  · show (httpError ResponseWriter.fresh "Path must be provided" StatusBadRequest).body = _
    rw [body_httpError_fresh, goBytes_append]

/-- Claim C8: for every method other than `GET` and every non-empty key other
than `healthz`, `serveMinioFile` answers 405 (message `Method <M> not
supported`) and issues no backend call, whatever the backend is. -/
theorem key_other_method_not_allowed (cfg : Config) (minioClient : Client) (now last : Int)
    (method k : String) (hm : method ≠ "GET") (hk : k ≠ "") (hh : k ≠ "healthz") :
    ∃ s : Effects,
      serveMinioFile cfg minioClient now method ("/" ++ k) (Effects.init last) = some s ∧
      s.w.statusCode = 405 ∧
      s.w.body = goBytes ("Method " ++ method ++ " not supported") ++ goBytes "\n" ∧
      s.calls = [] := by
  refine ⟨_, serveMinioFile_key_other cfg minioClient now method k hm hk hh (Effects.init last),
    ?_, ?_, rfl⟩
  · exact statusCode_httpError_fresh _ _
  · show (httpError ResponseWriter.fresh ("Method " ++ method ++ " not supported")
      StatusMethodNotAllowed).body = _
    rw [body_httpError_fresh, goBytes_append]

/-- Witness of C8: `POST /anything` on a backend that is up. -/
theorem key_other_method_not_allowed_witness :
    ("POST" ≠ "GET" ∧ "anything" ≠ "" ∧ "anything" ≠ "healthz") ∧
    ∃ s : Effects,
      serveMinioFile sampleConfig upClient 130 "POST" ("/" ++ "anything") (Effects.init 0)
        = some s ∧
      s.w.statusCode = 405 ∧
      s.w.body = goBytes ("Method " ++ "POST" ++ " not supported") ++ goBytes "\n" ∧
      s.calls = [] :=
  ⟨⟨by decide, by decide, by decide⟩,
    key_other_method_not_allowed sampleConfig upClient 130 0 "POST" "anything"
      (by decide) (by decide) (by decide)⟩

/-- Claim C9: for every method other than `GET`, every state and every time,
a request for `/healthz` gets status 405, makes no backend call, and leaves
`lastHealthCheckTime` as it was. -/
theorem healthz_other_method_not_allowed (cfg : Config) (minioClient : Client)
    (now last : Int) (method : String) (hm : method ≠ "GET") :
    ∃ s : Effects,
      serveMinioFile cfg minioClient now method "/healthz" (Effects.init last) = some s ∧
      s.w.statusCode = 405 ∧
      s.calls = [] ∧
      s.lastHealthCheckTime = last := by
  refine ⟨_, serveMinioFile_healthz_other cfg minioClient now method hm (Effects.init last),
    ?_, rfl, rfl⟩
  exact statusCode_httpError_fresh _ _

/-- Witness of C9: `PUT /healthz` at time 130 with `lastHealthCheckTime` 0,
when a `GET` would probe. -/
theorem healthz_other_method_not_allowed_witness :
    "PUT" ≠ "GET" ∧
    ∃ s : Effects,
      serveMinioFile sampleConfig upClient 130 "PUT" "/healthz" (Effects.init 0) = some s ∧
      s.w.statusCode = 405 ∧
      s.calls = [] ∧
      s.lastHealthCheckTime = 0 :=
  ⟨by decide, healthz_other_method_not_allowed sampleConfig upClient 130 0 "PUT" (by decide)⟩

/-! ## Monotonicity of `lastHealthCheckTime` -/

/-- Claim C10 fails as stated: with the cache interval parsed from `-100`,
`lastHealthCheckTime` 100 and the clock at 50, a `GET /healthz` whose probe
succeeds sets `lastHealthCheckTime` to 50. -/
theorem lastHealthCheckTime_can_decrease :
    parseHealthCheckCacheInterval "-100"
        = some negativeIntervalConfig.healthCheckCacheInterval ∧
    lastAfter 100 (serveMinioFile negativeIntervalConfig upClient 50 "GET" "/healthz"
        (Effects.init 100)) = 50 ∧
    ¬ (100 ≤ lastAfter 100 (serveMinioFile negativeIntervalConfig upClient 50 "GET" "/healthz"
        (Effects.init 100))) := by
  decide

/-- Claim C10, amended: handling a request never lowers `lastHealthCheckTime`
when the current time is not before it, or when the cache interval is not
negative and the elapsed time `now - lastHealthCheckTime` is an `int64` value;
this for every method, path and backend. -/
theorem lastHealthCheckTime_monotone (cfg : Config) (minioClient : Client) (now last : Int)
    (method urlPath : String)
    (h : last ≤ now ∨ (0 ≤ cfg.healthCheckCacheInterval ∧ isInt64 (now - last))) :
    last ≤ lastAfter last
      (serveMinioFile cfg minioClient now method urlPath (Effects.init last)) := by
  have key := serveMinioFile_lastHealthCheckTime cfg minioClient now method urlPath
    (Effects.init last)
  have hinit : (Effects.init last).lastHealthCheckTime = last := rfl
  rw [hinit] at key
  rcases key with hsame | ⟨hnow, hgt⟩
  · rw [hsame]
  · rw [hnow]
    rcases h with hle | ⟨hpos, hfit⟩
    · exact hle
    · rw [int64Sub_of_isInt64 now last hfit] at hgt
      omega

/-- Witness of the amended C10: interval 120, `lastHealthCheckTime` 0, a
`GET /healthz` at time 130 on a backend that is up. -/
theorem lastHealthCheckTime_monotone_witness :
    ((0 : Int) ≤ 130 ∨
      (0 ≤ sampleConfig.healthCheckCacheInterval ∧ isInt64 (130 - 0))) ∧
    (0 : Int) ≤ lastAfter 0
      (serveMinioFile sampleConfig upClient 130 "GET" "/healthz" (Effects.init 0)) :=
  ⟨Or.inl (by decide),
    lastHealthCheckTime_monotone sampleConfig upClient 130 0 "GET" "/healthz"
      (Or.inl (by decide))⟩

end RestMinioProxy
